import Mathlib

/-!
Verification development for the WpCrasher driver
(src/tools/WpCrasher/device.c).

The file embeds the three routines of device.c as pure Lean functions:

* WpCrasherDoBugCheck - the fatal-stop trigger (lines 53-80);
* WpCrasherEvtInterruptIsr - the gesture timing state machine run on every
  touch interrupt (lines 122-293);
* WpCrasherOnPowerSettingsChange - the monitor power-state gate
  (lines 295-369).

Machine integers are modelled as Nat with explicit reductions modulo 2^64
(ULONGLONG) and 2^32 (ULONG).  Timestamps delivered by
KeQueryUnbiasedInterruptTime are 100-nanosecond ticks from a monotonically
increasing 64-bit clock, so 1 second = 10000000 ticks.
-/

set_option maxHeartbeats 1000000

/-- Modulus of ULONGLONG (64-bit unsigned) arithmetic. -/
def U64 : Nat := 18446744073709551616

/-- Modulus of ULONG (32-bit unsigned) arithmetic. -/
def U32 : Nat := 4294967296

/-- Unsigned 64-bit subtraction exactly as C computes it on ULONGLONG
operands: the difference wraps modulo 2^64. -/
def usub64 (a b : Nat) : Nat := (a % U64 + (U64 - b % U64)) % U64

/-- On in-range operands with no underflow, wrapping 64-bit subtraction
agrees with truncated Nat subtraction. -/
theorem usub64_eq {a b : Nat} (hba : b ≤ a) (ha : a < U64) :
    usub64 a b = a - b := by
  simp only [usub64, U64] at *
  omega

/-- Modelled from the spec: device.h is not among the sources, so the timing
constants come from the spec (section 6).  Two touch events more than 0.2 s
apart belong to different swipes: 0.2 s = 2000000 ticks. -/
def SINGLE_SWIPE_MAX_INTERVAL : Nat := 2000000

/-- Modelled from the spec: minimum swipe duration and minimum inter-swipe
rest, 5 s = 50000000 ticks. -/
def SINGLE_SWIPE_MIN_PERIOD : Nat := 50000000

/-- Modelled from the spec: device.c uses this single constant both as the
upper bound of the inter-swipe rest window (line 225) and as the swipe
duration timeout (line 247).  The spec gives the rest window as 5 s .. 15 s
(sections 4.1 and 8) and the code comments on lines 134-137 say the graceful
period is 5 ~ 15 secs, so the constant is taken as 15 s = 150000000 ticks;
the lone figure of 10 s in the section 6 constant list cannot also hold,
since the source uses one symbol in both checks. -/
def SINGLE_SWIPE_MAX_PERIOD : Nat := 150000000

/-- Modelled from the spec: the whole pattern must complete within
60 s = 600000000 ticks. -/
def INPUT_PATTERN_MAX_PERIOD : Nat := 600000000

/-- Modelled from the spec: number of swipes required to trigger the
bug check. -/
def INPUT_PATTERN_NUM_OF_SWIPES : Nat := 4

/-- Ten seconds in 100 ns ticks; the bound the claims place on the span of a
single swipe. -/
def TEN_SECONDS : Nat := 100000000

/-- The per-device context fields of device.h that device.c reads and
mutates.  Timestamps are ULONGLONG ticks, NumberOfSwipes and
LastProcessedMonitorState are ULONG values. -/
structure DEVICE_EXTENSION where
  TimeStampInputPatternBegin : Nat
  TimeStampSwipeBegin : Nat
  TimeStampLastInterrupt : Nat
  NumberOfSwipes : Nat
  SwipeThreholdReached : Bool
  LastProcessedMonitorState : Nat
deriving DecidableEq

/-- WDF zero-initializes the context memory when the device object is
created. -/
def zeroDev : DEVICE_EXTENSION :=
  { TimeStampInputPatternBegin := 0
    TimeStampSwipeBegin := 0
    TimeStampLastInterrupt := 0
    NumberOfSwipes := 0
    SwipeThreholdReached := false
    LastProcessedMonitorState := 0 }

/-- Outcome of WpCrasherDoBugCheck (device.c lines 53-80).  debugBreak
models the soft breakpoint issued when a kernel debugger is attached; the
routine then returns normally.  systemStop models KeBugCheckEx, which never
returns. -/
inductive BugCheckOutcome where
  | debugBreak
  | systemStop (code p1 p2 p3 p4 : Nat)
deriving DecidableEq

/-- Windows bug check code MANUALLY_INITIATED_CRASH (0xE2), the fixed reason
code passed to KeBugCheckEx on line 78. -/
def MANUALLY_INITIATED_CRASH : Nat := 0xE2

/-- Embedding of WpCrasherDoBugCheck (device.c lines 53-80).  The implicit
global read of KD_DEBUGGER_NOT_PRESENT (macro IS_DEBUGGER_ATTACHED, line 50)
is passed as the argument debuggerAttached. -/
def WpCrasherDoBugCheck (debuggerAttached : Bool) : BugCheckOutcome :=
  if debuggerAttached then
    BugCheckOutcome.debugBreak
  else
    BugCheckOutcome.systemStop MANUALLY_INITIATED_CRASH 1 0 0 0

/-- Result of one call of the interrupt service routine: the mutated device
context, whether WpCrasherDoBugCheck was invoked on this call, and the
BOOLEAN return value of the ISR.  The devContext field records the memory
state at the point the routine returns, i.e. the debugger-attached
continuation in which WpCrasherDoBugCheck comes back from the soft
breakpoint; when no debugger is attached and bugCheckInvoked is true the
machine halts inside the call instead. -/
structure IsrResult where
  devContext : DEVICE_EXTENSION
  bugCheckInvoked : Bool
  returnValue : Bool
deriving DecidableEq

/-- Continuation of WpCrasherEvtInterruptIsr from the swipe-duration checks
onward (device.c lines 247-293).  swippingTime is the value of the local
variable at line 247: either the stored duration of the current swipe as of
the previous interrupt, or 0 when line 239 just started a new swipe. -/
def isrSwipeChecks (devContext : DEVICE_EXTENSION) (swippingTime : Nat) :
    IsrResult :=
  if swippingTime > SINGLE_SWIPE_MAX_PERIOD then
    { devContext := { devContext with TimeStampInputPatternBegin := 0 }
      bugCheckInvoked := false
      returnValue := false }
  else if swippingTime < SINGLE_SWIPE_MIN_PERIOD ∨
      devContext.SwipeThreholdReached = true then
    { devContext := devContext, bugCheckInvoked := false, returnValue := false }
  else
    let devContext2 : DEVICE_EXTENSION :=
      { devContext with
          NumberOfSwipes := (devContext.NumberOfSwipes + 1) % U32
          SwipeThreholdReached := true }
    if devContext2.NumberOfSwipes = INPUT_PATTERN_NUM_OF_SWIPES then
      { devContext := { devContext2 with TimeStampInputPatternBegin := 0 }
        bugCheckInvoked := true
        returnValue := false }
    else
      { devContext := devContext2, bugCheckInvoked := false, returnValue := false }

/-- Embedding of WpCrasherEvtInterruptIsr (device.c lines 122-293).
currentTime is the KeQueryUnbiasedInterruptTime reading of line 164, a
ULONGLONG tick count. -/
def WpCrasherEvtInterruptIsr (devContext : DEVICE_EXTENSION)
    (currentTime : Nat) : IsrResult :=
  if devContext.TimeStampInputPatternBegin = 0 then
    { devContext :=
        { devContext with
            TimeStampInputPatternBegin := currentTime
            TimeStampSwipeBegin := currentTime
            TimeStampLastInterrupt := currentTime
            NumberOfSwipes := 0
            SwipeThreholdReached := false }
      bugCheckInvoked := false
      returnValue := false }
  else if usub64 currentTime devContext.TimeStampInputPatternBegin >
      INPUT_PATTERN_MAX_PERIOD then
    { devContext := { devContext with TimeStampInputPatternBegin := 0 }
      bugCheckInvoked := false
      returnValue := false }
  else
    let stoppedTime := usub64 currentTime devContext.TimeStampLastInterrupt
    let swippingTime :=
      usub64 devContext.TimeStampLastInterrupt devContext.TimeStampSwipeBegin
    let devContext1 : DEVICE_EXTENSION :=
      { devContext with TimeStampLastInterrupt := currentTime }
    if stoppedTime > SINGLE_SWIPE_MAX_INTERVAL then
      if stoppedTime < SINGLE_SWIPE_MIN_PERIOD ∨
          stoppedTime > SINGLE_SWIPE_MAX_PERIOD then
        { devContext := { devContext1 with TimeStampInputPatternBegin := 0 }
          bugCheckInvoked := false
          returnValue := false }
      else
        isrSwipeChecks
          { devContext1 with
              TimeStampSwipeBegin := currentTime
              SwipeThreholdReached := false } 0
    else
      isrSwipeChecks devContext1 swippingTime

/-- Folds the ISR over a list of interrupt timestamps and returns the final
device context. -/
def runIsr (devContext : DEVICE_EXTENSION) : List Nat → DEVICE_EXTENSION
  | [] => devContext
  | t :: ts => runIsr (WpCrasherEvtInterruptIsr devContext t).devContext ts

/-- Number of calls of WpCrasherDoBugCheck made while folding the ISR over a
list of interrupt timestamps. -/
def isrFires (devContext : DEVICE_EXTENSION) : List Nat → Nat
  | [] => 0
  | t :: ts =>
    (if (WpCrasherEvtInterruptIsr devContext t).bugCheckInvoked then 1 else 0) +
      isrFires (WpCrasherEvtInterruptIsr devContext t).devContext ts

/-- Checks that every call of the ISR in the fold that invokes the bug check
leaves the context with TimeStampInputPatternBegin = 0 and
NumberOfSwipes = INPUT_PATTERN_NUM_OF_SWIPES in its post-state. -/
def isrFireResetsOk (devContext : DEVICE_EXTENSION) : List Nat → Bool
  | [] => true
  | t :: ts =>
    ((!(WpCrasherEvtInterruptIsr devContext t).bugCheckInvoked) ||
      (decide ((WpCrasherEvtInterruptIsr devContext t).devContext.TimeStampInputPatternBegin = 0) &&
       decide ((WpCrasherEvtInterruptIsr devContext t).devContext.NumberOfSwipes =
         INPUT_PATTERN_NUM_OF_SWIPES))) &&
      isrFireResetsOk (WpCrasherEvtInterruptIsr devContext t).devContext ts

/-- The two control effects the power-state gate can request from the host:
WdfInterruptReportActive and WdfInterruptReportInactive. -/
inductive InterruptReport where
  | active
  | inactive
deriving DecidableEq

/-- Result of one call of the power-settings callback: the NTSTATUS return
value, the device context as left behind (none models a NULL CbContext), and
the activation effect requested, if any. -/
structure PowerCallbackResult where
  status : Nat
  devContext : Option DEVICE_EXTENSION
  report : Option InterruptReport
deriving DecidableEq

/-- NTSTATUS success code returned on every non-error path. -/
def STATUS_SUCCESS : Nat := 0

/-- NTSTATUS code 0xC000000D returned for bad notification parameters. -/
def STATUS_INVALID_PARAMETER : Nat := 3221225485

/-- The registered monitor power setting GUID, 02731015-4510-4526-99E6-
E5A17EBD1AEA, encoded as one 128-bit number; only equality on it matters. -/
def GUID_MONITOR_POWER_ON : Nat := 0x027310154510452699E6E5A17EBD1AEA

/-- Modelled from the spec: device.h value meaning the monitor is on; any
other ULONG value reports the interrupt inactive. -/
def MONITOR_IS_ON : Nat := 1

/-- Size in bytes of a ULONG, the expected ValueLength. -/
def sizeof_ULONG : Nat := 4

/-- Embedding of WpCrasherOnPowerSettingsChange (device.c lines 295-369).
SettingGuid is the GUID the notification carries; Value is none for a NULL
Value pointer and otherwise holds the ULONG monitor state it points to;
CbContext is none for a NULL context and otherwise holds the device
context reachable through the WDFDEVICE handle. -/
def WpCrasherOnPowerSettingsChange (SettingGuid : Nat) (Value : Option Nat)
    (ValueLength : Nat) (CbContext : Option DEVICE_EXTENSION) :
    PowerCallbackResult :=
  if ¬ SettingGuid = GUID_MONITOR_POWER_ON then
    { status := STATUS_SUCCESS, devContext := CbContext, report := none }
  else if Value = none ∨ ValueLength ≠ sizeof_ULONG ∨ CbContext = none then
    { status := STATUS_INVALID_PARAMETER, devContext := CbContext, report := none }
  else
    let monitorState := Value.getD 0
    let devContext := CbContext.getD zeroDev
    if devContext.LastProcessedMonitorState = monitorState then
      { status := STATUS_SUCCESS, devContext := some devContext, report := none }
    else
      let devContext2 : DEVICE_EXTENSION :=
        { devContext with LastProcessedMonitorState := monitorState }
      if monitorState = MONITOR_IS_ON then
        { status := STATUS_SUCCESS, devContext := some devContext2
          report := some InterruptReport.active }
      else
        { status := STATUS_SUCCESS, devContext := some devContext2
          report := some InterruptReport.inactive }

/-! ## Basic lemmas about the ISR -/

theorem isrSwipeChecks_returnValue (d : DEVICE_EXTENSION) (s : Nat) :
    (isrSwipeChecks d s).returnValue = false := by
  unfold isrSwipeChecks
  split
  · rfl
  · split
    · rfl
    · dsimp only
      split <;> rfl

/-- C9: the interrupt event handler returns FALSE (not claimed) on every
path: cold start, overall timeout, abandonment, new swipe, swipe counted and
pattern completion alike. -/
theorem claim_C9 (d : DEVICE_EXTENSION) (t : Nat) :
    (WpCrasherEvtInterruptIsr d t).returnValue = false := by
  unfold WpCrasherEvtInterruptIsr
  split
  · rfl
  · split
    · rfl
    · dsimp only
      split
      · split
        · rfl
        · exact isrSwipeChecks_returnValue _ _
      · exact isrSwipeChecks_returnValue _ _

/-- C3: the fatal-stop trigger takes exactly one of two mutually exclusive
branches on debugger presence: with a debugger attached it issues the soft
breakpoint and returns; without one it forces the system stop with reason
code MANUALLY_INITIATED_CRASH and parameters 1, 0, 0, 0, which never
returns (modelled by the systemStop outcome). -/
theorem claim_C3 (debuggerAttached : Bool) :
    (debuggerAttached = true →
      WpCrasherDoBugCheck debuggerAttached = BugCheckOutcome.debugBreak) ∧
    (debuggerAttached = false →
      WpCrasherDoBugCheck debuggerAttached =
        BugCheckOutcome.systemStop MANUALLY_INITIATED_CRASH 1 0 0 0) ∧
    ¬ (WpCrasherDoBugCheck debuggerAttached = BugCheckOutcome.debugBreak ∧
        WpCrasherDoBugCheck debuggerAttached =
          BugCheckOutcome.systemStop MANUALLY_INITIATED_CRASH 1 0 0 0) := by
  cases debuggerAttached <;> simp [WpCrasherDoBugCheck]

/-- Witness for C3 at the concrete input debuggerAttached = false. -/
theorem claim_C3_witness :
    WpCrasherDoBugCheck false =
      BugCheckOutcome.systemStop MANUALLY_INITIATED_CRASH 1 0 0 0 :=
  (claim_C3 false).2.1 rfl

/-! ## Power-state gate claims -/

/-- C4: with the registered monitor-power GUID, the callback returns
STATUS_INVALID_PARAMETER exactly when the value pointer is absent, the
length differs from sizeof(ULONG), or the context is absent; and on that
error path the device context is untouched and no activation effect is
requested. -/
theorem claim_C4 (Value : Option Nat) (ValueLength : Nat)
    (CbContext : Option DEVICE_EXTENSION) :
    ((WpCrasherOnPowerSettingsChange GUID_MONITOR_POWER_ON Value ValueLength
        CbContext).status = STATUS_INVALID_PARAMETER ↔
      (Value = none ∨ ValueLength ≠ sizeof_ULONG ∨ CbContext = none)) ∧
    ((Value = none ∨ ValueLength ≠ sizeof_ULONG ∨ CbContext = none) →
      (WpCrasherOnPowerSettingsChange GUID_MONITOR_POWER_ON Value ValueLength
        CbContext).devContext = CbContext ∧
      (WpCrasherOnPowerSettingsChange GUID_MONITOR_POWER_ON Value ValueLength
        CbContext).report = none) := by
  by_cases hbad : Value = none ∨ ValueLength ≠ sizeof_ULONG ∨ CbContext = none
  · constructor
    · unfold WpCrasherOnPowerSettingsChange
      rw [if_neg (not_not_intro rfl), if_pos hbad]
      exact iff_of_true rfl hbad
    · intro _
      unfold WpCrasherOnPowerSettingsChange
      rw [if_neg (not_not_intro rfl), if_pos hbad]
      exact ⟨rfl, rfl⟩
  · have hstat : (WpCrasherOnPowerSettingsChange GUID_MONITOR_POWER_ON Value
        ValueLength CbContext).status = STATUS_SUCCESS := by
      unfold WpCrasherOnPowerSettingsChange
      rw [if_neg (not_not_intro rfl), if_neg hbad]
      dsimp only
      split
      · rfl
      · split <;> rfl
    constructor
    · rw [hstat]
      exact iff_of_false (by decide) hbad
    · intro h
      exact absurd h hbad

/-- Witness for C4 at the concrete input of an absent value pointer. -/
theorem claim_C4_witness :
    (WpCrasherOnPowerSettingsChange GUID_MONITOR_POWER_ON none 4
      none).devContext = none ∧
    (WpCrasherOnPowerSettingsChange GUID_MONITOR_POWER_ON none 4
      none).report = none :=
  (claim_C4 none 4 none).2 (Or.inl rfl)

/-- C10: a notification whose GUID is not the registered monitor-power GUID
is dismissed with STATUS_SUCCESS before any parameter validation, with no
state change and no activation effect, even when the value pointer is null,
the length is wrong, or the context is null. -/
theorem claim_C10 (SettingGuid : Nat) (Value : Option Nat) (ValueLength : Nat)
    (CbContext : Option DEVICE_EXTENSION)
    (h : SettingGuid ≠ GUID_MONITOR_POWER_ON) :
    WpCrasherOnPowerSettingsChange SettingGuid Value ValueLength CbContext =
      { status := STATUS_SUCCESS, devContext := CbContext, report := none } := by
  unfold WpCrasherOnPowerSettingsChange
  rw [if_pos h]

/-- Witness for C10 at a concrete foreign GUID with malformed parameters. -/
theorem claim_C10_witness :
    WpCrasherOnPowerSettingsChange 0 none 7 none =
      { status := STATUS_SUCCESS, devContext := none, report := none } :=
  claim_C10 0 none 7 none (by decide)

/-- First delivery of a valid monitor-power notification with value v. -/
def c5FirstCall (d : DEVICE_EXTENSION) (v : Nat) : PowerCallbackResult :=
  WpCrasherOnPowerSettingsChange GUID_MONITOR_POWER_ON (some v) sizeof_ULONG
    (some d)

/-- Second, consecutive delivery of the same notification, acting on the
context the first delivery left behind. -/
def c5SecondCall (d : DEVICE_EXTENSION) (v : Nat) : PowerCallbackResult :=
  WpCrasherOnPowerSettingsChange GUID_MONITOR_POWER_ON (some v) sizeof_ULONG
    (c5FirstCall d v).devContext

/-- Characterization of a valid monitor-power notification: either the value
equals the last processed state and nothing happens, or the state is updated
and the matching activation effect is requested. -/
theorem power_valid_eq (d : DEVICE_EXTENSION) (v : Nat) :
    WpCrasherOnPowerSettingsChange GUID_MONITOR_POWER_ON (some v) sizeof_ULONG
        (some d) =
      if d.LastProcessedMonitorState = v then
        { status := STATUS_SUCCESS, devContext := some d, report := none }
      else
        { status := STATUS_SUCCESS
          devContext := some { d with LastProcessedMonitorState := v }
          report := some (if v = MONITOR_IS_ON then InterruptReport.active
            else InterruptReport.inactive) } := by
  unfold WpCrasherOnPowerSettingsChange
  rw [if_neg (not_not_intro rfl), if_neg (by simp)]
  dsimp only [Option.getD_some]
  by_cases h : d.LastProcessedMonitorState = v
  · rw [if_pos h, if_pos h]
  · rw [if_neg h, if_neg h]
    by_cases h2 : v = MONITOR_IS_ON
    · rw [if_pos h2, if_pos h2]
    · rw [if_neg h2, if_neg h2]

/-- Counterexample to C5 as stated: when the delivered value already equals
lastProcessedPowerState, a pair of identical valid notifications produces
zero activation effects, not exactly one. -/
theorem claim_C5_counterexample :
    (c5FirstCall { zeroDev with LastProcessedMonitorState := 1 } 1).report =
      none ∧
    (c5SecondCall { zeroDev with LastProcessedMonitorState := 1 } 1).report =
      none ∧
    (c5SecondCall { zeroDev with LastProcessedMonitorState := 1 } 1).status =
      STATUS_SUCCESS := by decide

/-- C5 amended: for a pair of consecutive valid notifications carrying the
same value, the second call always returns success with no activation effect
and no state change; the pair performs exactly one activation effect when
the value differs from lastProcessedPowerState, and none when it already
matches. -/
theorem claim_C5 (d : DEVICE_EXTENSION) (v : Nat) :
    (c5SecondCall d v).status = STATUS_SUCCESS ∧
    (c5SecondCall d v).report = none ∧
    (c5SecondCall d v).devContext = (c5FirstCall d v).devContext ∧
    (d.LastProcessedMonitorState ≠ v → (c5FirstCall d v).report ≠ none) ∧
    (d.LastProcessedMonitorState = v → (c5FirstCall d v).report = none) := by
  by_cases h : d.LastProcessedMonitorState = v
  · have h1 : c5FirstCall d v =
        { status := STATUS_SUCCESS, devContext := some d, report := none } := by
      unfold c5FirstCall
      rw [power_valid_eq, if_pos h]
    have h2 : c5SecondCall d v =
        { status := STATUS_SUCCESS, devContext := some d, report := none } := by
      unfold c5SecondCall
      rw [h1]
      exact (power_valid_eq d v).trans (if_pos h)
    rw [h1, h2]
    simp [h]
  · have h1 : c5FirstCall d v =
        { status := STATUS_SUCCESS
          devContext := some { d with LastProcessedMonitorState := v }
          report := some (if v = MONITOR_IS_ON then InterruptReport.active
            else InterruptReport.inactive) } := by
      unfold c5FirstCall
      rw [power_valid_eq, if_neg h]
    have h2 : c5SecondCall d v =
        { status := STATUS_SUCCESS
          devContext := some { d with LastProcessedMonitorState := v }
          report := none } := by
      unfold c5SecondCall
      rw [h1]
      exact (power_valid_eq _ v).trans (if_pos rfl)
    rw [h1, h2]
    simp [h]

/-- Witness for C5 at the zero-initialized context and the value 1, where
the first delivery does request an activation effect. -/
theorem claim_C5_witness : (c5FirstCall zeroDev 1).report ≠ none :=
  (claim_C5 zeroDev 1).2.2.2.1 (by decide)

/-! ## Step lemmas for the interrupt service routine -/

theorem isr_cold (d : DEVICE_EXTENSION) (t : Nat)
    (h : d.TimeStampInputPatternBegin = 0) :
    WpCrasherEvtInterruptIsr d t =
      { devContext :=
          { d with
              TimeStampInputPatternBegin := t
              TimeStampSwipeBegin := t
              TimeStampLastInterrupt := t
              NumberOfSwipes := 0
              SwipeThreholdReached := false }
        bugCheckInvoked := false
        returnValue := false } := by
  unfold WpCrasherEvtInterruptIsr
  rw [if_pos h]

theorem isr_noBoundary (d : DEVICE_EXTENSION) (t : Nat)
    (h1 : ¬ d.TimeStampInputPatternBegin = 0)
    (h2 : ¬ usub64 t d.TimeStampInputPatternBegin > INPUT_PATTERN_MAX_PERIOD)
    (h3 : ¬ usub64 t d.TimeStampLastInterrupt > SINGLE_SWIPE_MAX_INTERVAL) :
    WpCrasherEvtInterruptIsr d t =
      isrSwipeChecks { d with TimeStampLastInterrupt := t }
        (usub64 d.TimeStampLastInterrupt d.TimeStampSwipeBegin) := by
  unfold WpCrasherEvtInterruptIsr
  rw [if_neg h1, if_neg h2]
  dsimp only
  rw [if_neg h3]

theorem isr_boundary_abandon (d : DEVICE_EXTENSION) (t : Nat)
    (h1 : ¬ d.TimeStampInputPatternBegin = 0)
    (h2 : ¬ usub64 t d.TimeStampInputPatternBegin > INPUT_PATTERN_MAX_PERIOD)
    (h3 : usub64 t d.TimeStampLastInterrupt > SINGLE_SWIPE_MAX_INTERVAL)
    (h4 : usub64 t d.TimeStampLastInterrupt < SINGLE_SWIPE_MIN_PERIOD ∨
      usub64 t d.TimeStampLastInterrupt > SINGLE_SWIPE_MAX_PERIOD) :
    WpCrasherEvtInterruptIsr d t =
      { devContext :=
          { d with TimeStampLastInterrupt := t, TimeStampInputPatternBegin := 0 }
        bugCheckInvoked := false
        returnValue := false } := by
  unfold WpCrasherEvtInterruptIsr
  rw [if_neg h1, if_neg h2]
  dsimp only
  rw [if_pos h3, if_pos h4]

theorem isr_boundary_new (d : DEVICE_EXTENSION) (t : Nat)
    (h1 : ¬ d.TimeStampInputPatternBegin = 0)
    (h2 : ¬ usub64 t d.TimeStampInputPatternBegin > INPUT_PATTERN_MAX_PERIOD)
    (h3 : usub64 t d.TimeStampLastInterrupt > SINGLE_SWIPE_MAX_INTERVAL)
    (h4 : ¬ (usub64 t d.TimeStampLastInterrupt < SINGLE_SWIPE_MIN_PERIOD ∨
      usub64 t d.TimeStampLastInterrupt > SINGLE_SWIPE_MAX_PERIOD)) :
    WpCrasherEvtInterruptIsr d t =
      { devContext :=
          { d with
              TimeStampLastInterrupt := t
              TimeStampSwipeBegin := t
              SwipeThreholdReached := false }
        bugCheckInvoked := false
        returnValue := false } := by
  unfold WpCrasherEvtInterruptIsr
  rw [if_neg h1, if_neg h2]
  dsimp only
  rw [if_pos h3, if_neg h4]
  unfold isrSwipeChecks
  rw [if_neg (by decide), if_pos (Or.inl (by decide))]

theorem isrSwipeChecks_skip (d : DEVICE_EXTENSION) (s : Nat)
    (h4 : ¬ s > SINGLE_SWIPE_MAX_PERIOD)
    (h5 : s < SINGLE_SWIPE_MIN_PERIOD ∨ d.SwipeThreholdReached = true) :
    isrSwipeChecks d s = { devContext := d, bugCheckInvoked := false, returnValue := false } := by
  unfold isrSwipeChecks
  rw [if_neg h4, if_pos h5]

theorem isrSwipeChecks_count (d : DEVICE_EXTENSION) (s : Nat)
    (h4 : ¬ s > SINGLE_SWIPE_MAX_PERIOD)
    (h5 : ¬ (s < SINGLE_SWIPE_MIN_PERIOD ∨ d.SwipeThreholdReached = true)) :
    (isrSwipeChecks d s).devContext.NumberOfSwipes =
      (d.NumberOfSwipes + 1) % U32 ∧
    (isrSwipeChecks d s).devContext.SwipeThreholdReached = true := by
  unfold isrSwipeChecks
  rw [if_neg h4, if_neg h5]
  dsimp only
  split <;> exact ⟨rfl, rfl⟩

theorem isrSwipeChecks_count_small (d : DEVICE_EXTENSION) (s : Nat)
    (h4 : ¬ s > SINGLE_SWIPE_MAX_PERIOD)
    (h5 : ¬ (s < SINGLE_SWIPE_MIN_PERIOD ∨ d.SwipeThreholdReached = true))
    (hn : d.NumberOfSwipes ≤ 2) :
    isrSwipeChecks d s =
      { devContext :=
          { d with
              NumberOfSwipes := d.NumberOfSwipes + 1
              SwipeThreholdReached := true }
        bugCheckInvoked := false
        returnValue := false } := by
  have hmod : (d.NumberOfSwipes + 1) % U32 = d.NumberOfSwipes + 1 := by
    unfold U32
    omega
  unfold isrSwipeChecks
  rw [if_neg h4, if_neg h5]
  dsimp only
  rw [hmod, if_neg (by unfold INPUT_PATTERN_NUM_OF_SWIPES; omega)]

theorem isrSwipeChecks_count_fire (d : DEVICE_EXTENSION) (s : Nat)
    (h4 : ¬ s > SINGLE_SWIPE_MAX_PERIOD)
    (h5 : ¬ (s < SINGLE_SWIPE_MIN_PERIOD ∨ d.SwipeThreholdReached = true))
    (hn : d.NumberOfSwipes = 3) :
    isrSwipeChecks d s =
      { devContext :=
          { d with
              TimeStampInputPatternBegin := 0
              NumberOfSwipes := 4
              SwipeThreholdReached := true }
        bugCheckInvoked := true
        returnValue := false } := by
  have hmod : (d.NumberOfSwipes + 1) % U32 = 4 := by
    rw [hn]
    decide
  unfold isrSwipeChecks
  rw [if_neg h4, if_neg h5]
  dsimp only
  rw [hmod]
  exact if_pos (by decide)

/-- C6: on a non-cold-start event past the 60 s overall deadline the handler
just resets TimeStampInputPatternBegin and returns: the full result state
shows lastEventTime is not updated, no swipe is counted and the bug check is
not invoked. -/
theorem claim_C6 (d : DEVICE_EXTENSION) (t : Nat)
    (h1 : d.TimeStampInputPatternBegin ≠ 0)
    (h2 : usub64 t d.TimeStampInputPatternBegin > INPUT_PATTERN_MAX_PERIOD) :
    WpCrasherEvtInterruptIsr d t =
      { devContext := { d with TimeStampInputPatternBegin := 0 }
        bugCheckInvoked := false
        returnValue := false } := by
  unfold WpCrasherEvtInterruptIsr
  rw [if_neg h1, if_pos h2]

/-- Witness for C6 at a concrete state and a timestamp 70 s past the
pattern start. -/
theorem claim_C6_witness :
    WpCrasherEvtInterruptIsr ⟨1, 1, 1, 0, false, 0⟩ 700000002 =
      { devContext := ⟨0, 1, 1, 0, false, 0⟩
        bugCheckInvoked := false
        returnValue := false } :=
  claim_C6 ⟨1, 1, 1, 0, false, 0⟩ 700000002 (by decide) (by decide)

/-! ## Swipe-boundary and threshold claims -/

theorem isrSwipeChecks_swipeBegin (d : DEVICE_EXTENSION) (s : Nat) :
    (isrSwipeChecks d s).devContext.TimeStampSwipeBegin =
      d.TimeStampSwipeBegin := by
  unfold isrSwipeChecks
  split
  · rfl
  · split
    · rfl
    · dsimp only
      split <;> rfl

/-- C2: on a non-cold-start, non-timed-out event whose gap since the
previous event strictly exceeds 0.2 s, the handler abandons (resets
TimeStampInputPatternBegin and returns with nothing else done beyond the
lastEventTime update) exactly when the gap falls outside the inter-swipe
rest window, and otherwise begins a new swipe with swipeStartTime set to
currentTime and the threshold flag cleared; a gap of exactly 0.2 s does not
start a new swipe. -/
theorem claim_C2 (d : DEVICE_EXTENSION) (t : Nat)
    (h1 : d.TimeStampInputPatternBegin ≠ 0)
    (h2 : ¬ usub64 t d.TimeStampInputPatternBegin > INPUT_PATTERN_MAX_PERIOD) :
    (usub64 t d.TimeStampLastInterrupt > SINGLE_SWIPE_MAX_INTERVAL →
      ((usub64 t d.TimeStampLastInterrupt < SINGLE_SWIPE_MIN_PERIOD ∨
          usub64 t d.TimeStampLastInterrupt > SINGLE_SWIPE_MAX_PERIOD) →
        WpCrasherEvtInterruptIsr d t =
          { devContext :=
              { d with
                  TimeStampLastInterrupt := t
                  TimeStampInputPatternBegin := 0 }
            bugCheckInvoked := false
            returnValue := false }) ∧
      ((SINGLE_SWIPE_MIN_PERIOD ≤ usub64 t d.TimeStampLastInterrupt ∧
          usub64 t d.TimeStampLastInterrupt ≤ SINGLE_SWIPE_MAX_PERIOD) →
        WpCrasherEvtInterruptIsr d t =
          { devContext :=
              { d with
                  TimeStampLastInterrupt := t
                  TimeStampSwipeBegin := t
                  SwipeThreholdReached := false }
            bugCheckInvoked := false
            returnValue := false }) ∧
      ((WpCrasherEvtInterruptIsr d t).devContext.TimeStampInputPatternBegin =
          0 ↔
        (usub64 t d.TimeStampLastInterrupt < SINGLE_SWIPE_MIN_PERIOD ∨
          usub64 t d.TimeStampLastInterrupt > SINGLE_SWIPE_MAX_PERIOD))) ∧
    (usub64 t d.TimeStampLastInterrupt = SINGLE_SWIPE_MAX_INTERVAL →
      (WpCrasherEvtInterruptIsr d t).devContext.TimeStampSwipeBegin =
        d.TimeStampSwipeBegin) := by
  constructor
  · intro hb
    refine ⟨fun hout => isr_boundary_abandon d t h1 h2 hb hout, fun hin => ?_, ?_⟩
    · exact isr_boundary_new d t h1 h2 hb (by omega)
    · constructor
      · intro hzero
        by_cases hout : usub64 t d.TimeStampLastInterrupt <
            SINGLE_SWIPE_MIN_PERIOD ∨
            usub64 t d.TimeStampLastInterrupt > SINGLE_SWIPE_MAX_PERIOD
        · exact hout
        · rw [isr_boundary_new d t h1 h2 hb hout] at hzero
          exact absurd hzero h1
      · intro hout
        rw [isr_boundary_abandon d t h1 h2 hb hout]
  · intro heq
    rw [isr_noBoundary d t h1 h2 (by omega)]
    rw [isrSwipeChecks_swipeBegin]

/-- Witness for C2 at a concrete state with a 7 s gap, inside the rest
window, beginning a new swipe. -/
theorem claim_C2_witness :
    WpCrasherEvtInterruptIsr ⟨1, 1, 1, 0, false, 0⟩ 70000001 =
      { devContext := ⟨1, 70000001, 70000001, 0, false, 0⟩
        bugCheckInvoked := false
        returnValue := false } :=
  (((claim_C2 ⟨1, 1, 1, 0, false, 0⟩ 70000001 (by decide) (by decide)).1
    (by decide)).2.1) (by decide)

/-- Counterexample to C8 as stated: with the stored swipe duration equal to
exactly 5 s, the guard swippingTime < SINGLE_SWIPE_MIN_PERIOD is false, so
the swipe IS counted on this event, contrary to the claim that exactly 5 s
is not yet counted. -/
theorem claim_C8_counterexample :
    usub64 (50000001 : Nat) 1 = SINGLE_SWIPE_MIN_PERIOD ∧
    (WpCrasherEvtInterruptIsr ⟨1, 1, 50000001, 0, false, 0⟩
      50000002).devContext.NumberOfSwipes = 1 ∧
    (WpCrasherEvtInterruptIsr ⟨1, 1, 50000001, 0, false, 0⟩
      50000002).devContext.SwipeThreholdReached = true := by decide

/-- C8 amended: with the threshold flag clear and no earlier step returning,
a stored swipe duration strictly below 5 s leaves the event without effect
beyond the lastEventTime update, while a duration of 5 s or more (including
exactly 5 s, since the guard is strict) counts the swipe and sets the
threshold flag. -/
theorem claim_C8 (d : DEVICE_EXTENSION) (t : Nat)
    (h1 : d.TimeStampInputPatternBegin ≠ 0)
    (h2 : ¬ usub64 t d.TimeStampInputPatternBegin > INPUT_PATTERN_MAX_PERIOD)
    (h3 : ¬ usub64 t d.TimeStampLastInterrupt > SINGLE_SWIPE_MAX_INTERVAL)
    (h4 : ¬ usub64 d.TimeStampLastInterrupt d.TimeStampSwipeBegin >
      SINGLE_SWIPE_MAX_PERIOD)
    (h5 : d.SwipeThreholdReached = false) :
    (usub64 d.TimeStampLastInterrupt d.TimeStampSwipeBegin <
        SINGLE_SWIPE_MIN_PERIOD →
      WpCrasherEvtInterruptIsr d t =
        { devContext := { d with TimeStampLastInterrupt := t }
          bugCheckInvoked := false
          returnValue := false }) ∧
    (SINGLE_SWIPE_MIN_PERIOD ≤
        usub64 d.TimeStampLastInterrupt d.TimeStampSwipeBegin →
      (WpCrasherEvtInterruptIsr d t).devContext.NumberOfSwipes =
        (d.NumberOfSwipes + 1) % U32 ∧
      (WpCrasherEvtInterruptIsr d t).devContext.SwipeThreholdReached =
        true) := by
  rw [isr_noBoundary d t h1 h2 h3]
  constructor
  · intro hlt
    exact isrSwipeChecks_skip _ _ h4 (Or.inl hlt)
  · intro hge
    exact isrSwipeChecks_count _ _ h4 (by simp [h5]; omega)

/-- Witness for C8 at a stored duration of 6 s, which counts the swipe. -/
theorem claim_C8_witness :
    (WpCrasherEvtInterruptIsr ⟨1, 1, 60000001, 0, false, 0⟩
      60000002).devContext.NumberOfSwipes = 1 ∧
    (WpCrasherEvtInterruptIsr ⟨1, 1, 60000001, 0, false, 0⟩
      60000002).devContext.SwipeThreholdReached = true :=
  (claim_C8 ⟨1, 1, 60000001, 0, false, 0⟩ 60000002 (by decide) (by decide)
    (by decide) (by decide) rfl).2 (by decide)

/-! ## Swipe-count invariant -/

theorem isr_timeout (d : DEVICE_EXTENSION) (t : Nat)
    (h1 : ¬ d.TimeStampInputPatternBegin = 0)
    (h2 : usub64 t d.TimeStampInputPatternBegin > INPUT_PATTERN_MAX_PERIOD) :
    WpCrasherEvtInterruptIsr d t =
      { devContext := { d with TimeStampInputPatternBegin := 0 }
        bugCheckInvoked := false
        returnValue := false } := by
  unfold WpCrasherEvtInterruptIsr
  rw [if_neg h1, if_pos h2]

theorem isrSwipeChecks_abort (d : DEVICE_EXTENSION) (s : Nat)
    (h : s > SINGLE_SWIPE_MAX_PERIOD) :
    isrSwipeChecks d s =
      { devContext := { d with TimeStampInputPatternBegin := 0 }
        bugCheckInvoked := false
        returnValue := false } := by
  unfold isrSwipeChecks
  rw [if_pos h]

/-- Invariant of the device context maintained by every ISR call: the swipe
count never exceeds 4, and while a pattern attempt is in progress it never
exceeds 3. -/
def devInv (d : DEVICE_EXTENSION) : Prop :=
  d.NumberOfSwipes ≤ 4 ∧
    (d.TimeStampInputPatternBegin ≠ 0 → d.NumberOfSwipes ≤ 3)

theorem isrSwipeChecks_inv (d : DEVICE_EXTENSION) (s : Nat)
    (hn : d.NumberOfSwipes ≤ 3) :
    devInv (isrSwipeChecks d s).devContext := by
  by_cases c5 : s > SINGLE_SWIPE_MAX_PERIOD
  · rw [isrSwipeChecks_abort d s c5]
    exact ⟨hn.trans (by omega), fun h => absurd rfl h⟩
  · by_cases c6 : s < SINGLE_SWIPE_MIN_PERIOD ∨ d.SwipeThreholdReached = true
    · rw [isrSwipeChecks_skip d s c5 c6]
      exact ⟨hn.trans (by omega), fun _ => hn⟩
    · by_cases c7 : d.NumberOfSwipes = 3
      · rw [isrSwipeChecks_count_fire d s c5 c6 c7]
        exact ⟨Nat.le_refl 4, fun h => absurd rfl h⟩
      · have hlt : d.NumberOfSwipes + 1 ≤ 3 := by omega
        rw [isrSwipeChecks_count_small d s c5 c6 (by omega)]
        exact ⟨hlt.trans (by omega), fun _ => hlt⟩

theorem devInv_step (d : DEVICE_EXTENSION) (t : Nat) (h : devInv d) :
    devInv (WpCrasherEvtInterruptIsr d t).devContext := by
  obtain ⟨hle, himp⟩ := h
  by_cases c1 : d.TimeStampInputPatternBegin = 0
  · rw [isr_cold d t c1]
    exact ⟨Nat.zero_le _, fun _ => Nat.zero_le _⟩
  · have hn := himp c1
    by_cases c2 : usub64 t d.TimeStampInputPatternBegin >
        INPUT_PATTERN_MAX_PERIOD
    · rw [isr_timeout d t c1 c2]
      exact ⟨hn.trans (by omega), fun h => absurd rfl h⟩
    · by_cases c3 : usub64 t d.TimeStampLastInterrupt >
          SINGLE_SWIPE_MAX_INTERVAL
      · by_cases c4 : usub64 t d.TimeStampLastInterrupt <
            SINGLE_SWIPE_MIN_PERIOD ∨
            usub64 t d.TimeStampLastInterrupt > SINGLE_SWIPE_MAX_PERIOD
        · rw [isr_boundary_abandon d t c1 c2 c3 c4]
          exact ⟨hn.trans (by omega), fun h => absurd rfl h⟩
        · rw [isr_boundary_new d t c1 c2 c3 c4]
          exact ⟨hn.trans (by omega), fun _ => hn⟩
      · rw [isr_noBoundary d t c1 c2 c3]
        exact isrSwipeChecks_inv _ _ hn

theorem devInv_runIsr (events : List Nat) :
    ∀ d : DEVICE_EXTENSION, devInv d → devInv (runIsr d events) := by
  induction events with
  | nil => exact fun _ h => h
  | cons t ts ih => exact fun d h => ih _ (devInv_step d t h)

theorem isrSwipeChecks_reach4 (d : DEVICE_EXTENSION) (s : Nat)
    (hpre : d.NumberOfSwipes ≠ INPUT_PATTERN_NUM_OF_SWIPES)
    (hpost : (isrSwipeChecks d s).devContext.NumberOfSwipes =
      INPUT_PATTERN_NUM_OF_SWIPES) :
    (isrSwipeChecks d s).bugCheckInvoked = true ∧
    (isrSwipeChecks d s).devContext.TimeStampInputPatternBegin = 0 := by
  by_cases c5 : s > SINGLE_SWIPE_MAX_PERIOD
  · rw [isrSwipeChecks_abort d s c5] at hpost
    exact absurd hpost hpre
  · by_cases c6 : s < SINGLE_SWIPE_MIN_PERIOD ∨ d.SwipeThreholdReached = true
    · rw [isrSwipeChecks_skip d s c5 c6] at hpost
      exact absurd hpost hpre
    · unfold isrSwipeChecks at hpost ⊢
      rw [if_neg c5, if_neg c6] at hpost ⊢
      dsimp only at hpost ⊢
      by_cases c7 : (d.NumberOfSwipes + 1) % U32 = INPUT_PATTERN_NUM_OF_SWIPES
      · rw [if_pos c7]
        exact ⟨rfl, rfl⟩
      · rw [if_neg c7] at hpost
        exact absurd hpost c7

/-- Any ISR call that makes NumberOfSwipes reach 4 when it was not 4 before
is a call through the pattern-complete branch: it invokes the bug check and
resets TimeStampInputPatternBegin on the same call. -/
theorem isr_reach4 (d : DEVICE_EXTENSION) (t : Nat)
    (hpre : d.NumberOfSwipes ≠ INPUT_PATTERN_NUM_OF_SWIPES)
    (hpost : (WpCrasherEvtInterruptIsr d t).devContext.NumberOfSwipes =
      INPUT_PATTERN_NUM_OF_SWIPES) :
    (WpCrasherEvtInterruptIsr d t).bugCheckInvoked = true ∧
    (WpCrasherEvtInterruptIsr d t).devContext.TimeStampInputPatternBegin =
      0 := by
  by_cases c1 : d.TimeStampInputPatternBegin = 0
  · rw [isr_cold d t c1] at hpost
    exact absurd hpost
      (show ¬ (0 = INPUT_PATTERN_NUM_OF_SWIPES) by decide)
  · by_cases c2 : usub64 t d.TimeStampInputPatternBegin >
        INPUT_PATTERN_MAX_PERIOD
    · rw [isr_timeout d t c1 c2] at hpost
      exact absurd hpost hpre
    · by_cases c3 : usub64 t d.TimeStampLastInterrupt >
          SINGLE_SWIPE_MAX_INTERVAL
      · by_cases c4 : usub64 t d.TimeStampLastInterrupt <
            SINGLE_SWIPE_MIN_PERIOD ∨
            usub64 t d.TimeStampLastInterrupt > SINGLE_SWIPE_MAX_PERIOD
        · rw [isr_boundary_abandon d t c1 c2 c3 c4] at hpost
          exact absurd hpost hpre
        · rw [isr_boundary_new d t c1 c2 c3 c4] at hpost
          exact absurd hpost hpre
      · rw [isr_noBoundary d t c1 c2 c3] at hpost ⊢
        exact isrSwipeChecks_reach4 _ _ hpre hpost

/-- C7: from the zero-initialized session state the swipe count stays in
[0, 4] after any sequence of ISR calls, and any call on which the count
reaches 4 invokes the bug check and resets the session to idle on that same
call. -/
theorem claim_C7 (events : List Nat) (d : DEVICE_EXTENSION) (t : Nat) :
    (runIsr zeroDev events).NumberOfSwipes ≤ INPUT_PATTERN_NUM_OF_SWIPES ∧
    (d.NumberOfSwipes ≠ INPUT_PATTERN_NUM_OF_SWIPES →
      (WpCrasherEvtInterruptIsr d t).devContext.NumberOfSwipes =
        INPUT_PATTERN_NUM_OF_SWIPES →
      (WpCrasherEvtInterruptIsr d t).bugCheckInvoked = true ∧
      (WpCrasherEvtInterruptIsr d t).devContext.TimeStampInputPatternBegin =
        0) := by
  constructor
  · exact (devInv_runIsr events zeroDev ⟨by decide, fun h => absurd rfl h⟩).1
  · exact fun hpre hpost => isr_reach4 d t hpre hpost

/-- Witness for C7: the empty event list, and a concrete call that takes the
count from 3 to 4, fires and resets. -/
theorem claim_C7_witness :
    (WpCrasherEvtInterruptIsr ⟨1, 1, 55000001, 3, false, 0⟩
      55000002).bugCheckInvoked = true ∧
    (WpCrasherEvtInterruptIsr ⟨1, 1, 55000001, 3, false, 0⟩
      55000002).devContext.TimeStampInputPatternBegin = 0 :=
  (claim_C7 [] ⟨1, 1, 55000001, 3, false, 0⟩ 55000002).2 (by decide) (by decide)

/-! ## Event-trace machinery for the full-pattern claim -/

/-- Chain of touch events continuing a swipe after the event p: each later
event strictly increases and follows its predecessor within 0.2 s. -/
def gapChain : Nat → List Nat → Prop
  | _, [] => True
  | p, t :: ts => p < t ∧ t - p ≤ SINGLE_SWIPE_MAX_INTERVAL ∧ gapChain t ts

def gapChainDec : (p : Nat) → (ts : List Nat) → Decidable (gapChain p ts)
  | _, [] => Decidable.isTrue trivial
  | p, t :: ts =>
    have : Decidable (gapChain t ts) := gapChainDec t ts
    inferInstanceAs (Decidable (p < t ∧ t - p ≤ SINGLE_SWIPE_MAX_INTERVAL ∧
      gapChain t ts))

attribute [instance] gapChainDec

/-- A whole swipe is a nonempty event list whose successive gaps are at most
0.2 s; the empty list holds trivially. -/
def gapsOk : List Nat → Prop
  | [] => True
  | h :: tail => gapChain h tail

def gapsOkDec : (l : List Nat) → Decidable (gapsOk l)
  | [] => Decidable.isTrue trivial
  | h :: tail => gapChainDec h tail

attribute [instance] gapsOkDec

/-- First event of a swipe, 0 for the empty list. -/
def c1Head (l : List Nat) : Nat := l.headD 0

/-- Last event of a swipe, 0 for the empty list. -/
def c1Last (l : List Nat) : Nat := l.getLastD 0

theorem gapChain_le_getLastD :
    ∀ (ts : List Nat) (p : Nat), gapChain p ts →
      ∀ x ∈ p :: ts, x ≤ ts.getLastD p := by
  intro ts
  induction ts with
  | nil =>
    intro p _ x hx
    rcases List.mem_cons.mp hx with rfl | hx
    · exact Nat.le_refl _
    · cases hx
  | cons t ts ih =>
    intro p h x hx
    obtain ⟨h1, _h2, h3⟩ := h
    rw [List.getLastD_cons]
    rcases List.mem_cons.mp hx with rfl | hx2
    · exact le_of_lt (lt_of_lt_of_le h1 (ih t h3 t (List.mem_cons_self t ts)))
    · exact ih t h3 x hx2

theorem gapsOk_le_last (l : List Nat) (h : gapsOk l) :
    ∀ x ∈ l, x ≤ c1Last l := by
  rcases l with _ | ⟨a, tail⟩
  · intro x hx
    cases hx
  · intro x hx
    have := gapChain_le_getLastD tail a h x hx
    unfold c1Last
    rw [List.getLastD_cons]
    exact this

theorem runIsr_append (a b : List Nat) :
    ∀ d : DEVICE_EXTENSION, runIsr d (a ++ b) = runIsr (runIsr d a) b := by
  induction a with
  | nil => intro d; rfl
  | cons t ts ih =>
    intro d
    simp only [List.cons_append, runIsr]
    exact ih _

theorem isrFires_append (a b : List Nat) :
    ∀ d : DEVICE_EXTENSION,
      isrFires d (a ++ b) = isrFires d a + isrFires (runIsr d a) b := by
  induction a with
  | nil => intro d; simp [isrFires, runIsr]
  | cons t ts ih =>
    intro d
    simp only [List.cons_append, isrFires, runIsr]
    rw [show ts.append b = ts ++ b from rfl, ih]
    omega

theorem isrSwipeChecks_fire_post (d : DEVICE_EXTENSION) (s : Nat)
    (hf : (isrSwipeChecks d s).bugCheckInvoked = true) :
    (isrSwipeChecks d s).devContext.TimeStampInputPatternBegin = 0 ∧
    (isrSwipeChecks d s).devContext.NumberOfSwipes =
      INPUT_PATTERN_NUM_OF_SWIPES := by
  by_cases c5 : s > SINGLE_SWIPE_MAX_PERIOD
  · rw [isrSwipeChecks_abort d s c5] at hf
    simp at hf
  · by_cases c6 : s < SINGLE_SWIPE_MIN_PERIOD ∨ d.SwipeThreholdReached = true
    · rw [isrSwipeChecks_skip d s c5 c6] at hf
      simp at hf
    · unfold isrSwipeChecks at hf ⊢
      rw [if_neg c5, if_neg c6] at hf ⊢
      dsimp only at hf ⊢
      by_cases c7 : (d.NumberOfSwipes + 1) % U32 = INPUT_PATTERN_NUM_OF_SWIPES
      · rw [if_pos c7]
        exact ⟨rfl, c7⟩
      · rw [if_neg c7] at hf
        simp at hf

theorem isr_fire_post (d : DEVICE_EXTENSION) (t : Nat)
    (hf : (WpCrasherEvtInterruptIsr d t).bugCheckInvoked = true) :
    (WpCrasherEvtInterruptIsr d t).devContext.TimeStampInputPatternBegin =
      0 ∧
    (WpCrasherEvtInterruptIsr d t).devContext.NumberOfSwipes =
      INPUT_PATTERN_NUM_OF_SWIPES := by
  by_cases c1 : d.TimeStampInputPatternBegin = 0
  · rw [isr_cold d t c1] at hf
    simp at hf
  · by_cases c2 : usub64 t d.TimeStampInputPatternBegin >
        INPUT_PATTERN_MAX_PERIOD
    · rw [isr_timeout d t c1 c2] at hf
      simp at hf
    · by_cases c3 : usub64 t d.TimeStampLastInterrupt >
          SINGLE_SWIPE_MAX_INTERVAL
      · by_cases c4 : usub64 t d.TimeStampLastInterrupt <
            SINGLE_SWIPE_MIN_PERIOD ∨
            usub64 t d.TimeStampLastInterrupt > SINGLE_SWIPE_MAX_PERIOD
        · rw [isr_boundary_abandon d t c1 c2 c3 c4] at hf
          simp at hf
        · rw [isr_boundary_new d t c1 c2 c3 c4] at hf
          simp at hf
      · rw [isr_noBoundary d t c1 c2 c3] at hf ⊢
        exact isrSwipeChecks_fire_post _ _ hf

/-- Every call of the ISR that invokes the bug check leaves the session
reset to idle with the count at 4 in its post-state, on any trace from any
state. -/
theorem isrFireResetsOk_all :
    ∀ (ts : List Nat) (d : DEVICE_EXTENSION), isrFireResetsOk d ts = true := by
  intro ts
  induction ts with
  | nil => intro d; rfl
  | cons t ts ih =>
    intro d
    unfold isrFireResetsOk
    rw [Bool.and_eq_true]
    refine ⟨?_, ih _⟩
    by_cases hf : (WpCrasherEvtInterruptIsr d t).bugCheckInvoked = true
    · have hpost := isr_fire_post d t hf
      simp [hf, hpost.1, hpost.2]
    · simp only [Bool.not_eq_true] at hf
      simp [hf]

/-! ## Running the ISR through one swipe -/

theorem isr_step_skip (t0 s p n m t : Nat) (b : Bool)
    (h0 : 0 < t0) (htp : t0 ≤ p) (hpt : p < t) (htU : t < U64)
    (ht60 : t ≤ t0 + INPUT_PATTERN_MAX_PERIOD)
    (hgap : t - p ≤ SINGLE_SWIPE_MAX_INTERVAL)
    (hsp : s ≤ p) (hpmax : p ≤ s + SINGLE_SWIPE_MAX_PERIOD)
    (hskip : p < s + SINGLE_SWIPE_MIN_PERIOD ∨ b = true) :
    WpCrasherEvtInterruptIsr ⟨t0, s, p, n, b, m⟩ t =
      ⟨⟨t0, s, t, n, b, m⟩, false, false⟩ := by
  have hpU : p < U64 := lt_of_le_of_lt (le_of_lt hpt) htU
  have husab : usub64 p s = p - s := usub64_eq hsp hpU
  have hne : ¬ (⟨t0, s, p, n, b, m⟩ :
      DEVICE_EXTENSION).TimeStampInputPatternBegin = 0 := by
    show ¬ t0 = 0
    omega
  have hto : ¬ usub64 t (⟨t0, s, p, n, b, m⟩ :
      DEVICE_EXTENSION).TimeStampInputPatternBegin >
      INPUT_PATTERN_MAX_PERIOD := by
    show ¬ usub64 t t0 > INPUT_PATTERN_MAX_PERIOD
    rw [usub64_eq (by omega) htU]
    omega
  have hnb : ¬ usub64 t (⟨t0, s, p, n, b, m⟩ :
      DEVICE_EXTENSION).TimeStampLastInterrupt >
      SINGLE_SWIPE_MAX_INTERVAL := by
    show ¬ usub64 t p > SINGLE_SWIPE_MAX_INTERVAL
    rw [usub64_eq (le_of_lt hpt) htU]
    omega
  have hfront : WpCrasherEvtInterruptIsr ⟨t0, s, p, n, b, m⟩ t =
      isrSwipeChecks ⟨t0, s, t, n, b, m⟩ (usub64 p s) :=
    isr_noBoundary _ t hne hto hnb
  have h4 : ¬ usub64 p s > SINGLE_SWIPE_MAX_PERIOD := by
    rw [husab]
    omega
  have h5 : usub64 p s < SINGLE_SWIPE_MIN_PERIOD ∨
      (⟨t0, s, t, n, b, m⟩ : DEVICE_EXTENSION).SwipeThreholdReached = true := by
    rcases hskip with h | h
    · left
      rw [husab]
      omega
    · exact Or.inr h
  rw [hfront, isrSwipeChecks_skip _ _ h4 h5]

theorem isr_step_count (t0 s p n m t : Nat)
    (h0 : 0 < t0) (htp : t0 ≤ p) (hpt : p < t) (htU : t < U64)
    (ht60 : t ≤ t0 + INPUT_PATTERN_MAX_PERIOD)
    (hgap : t - p ≤ SINGLE_SWIPE_MAX_INTERVAL)
    (hsp : s ≤ p) (hpmax : p ≤ s + SINGLE_SWIPE_MAX_PERIOD)
    (hmin : s + SINGLE_SWIPE_MIN_PERIOD ≤ p) :
    (n ≤ 2 →
      WpCrasherEvtInterruptIsr ⟨t0, s, p, n, false, m⟩ t =
        ⟨⟨t0, s, t, n + 1, true, m⟩, false, false⟩) ∧
    (n = 3 →
      WpCrasherEvtInterruptIsr ⟨t0, s, p, n, false, m⟩ t =
        ⟨⟨0, s, t, 4, true, m⟩, true, false⟩) := by
  have hpU : p < U64 := lt_of_le_of_lt (le_of_lt hpt) htU
  have husab : usub64 p s = p - s := usub64_eq hsp hpU
  have hne : ¬ (⟨t0, s, p, n, false, m⟩ :
      DEVICE_EXTENSION).TimeStampInputPatternBegin = 0 := by
    show ¬ t0 = 0
    omega
  have hto : ¬ usub64 t (⟨t0, s, p, n, false, m⟩ :
      DEVICE_EXTENSION).TimeStampInputPatternBegin >
      INPUT_PATTERN_MAX_PERIOD := by
    show ¬ usub64 t t0 > INPUT_PATTERN_MAX_PERIOD
    rw [usub64_eq (by omega) htU]
    omega
  have hnb : ¬ usub64 t (⟨t0, s, p, n, false, m⟩ :
      DEVICE_EXTENSION).TimeStampLastInterrupt >
      SINGLE_SWIPE_MAX_INTERVAL := by
    show ¬ usub64 t p > SINGLE_SWIPE_MAX_INTERVAL
    rw [usub64_eq (le_of_lt hpt) htU]
    omega
  have hfront : WpCrasherEvtInterruptIsr ⟨t0, s, p, n, false, m⟩ t =
      isrSwipeChecks ⟨t0, s, t, n, false, m⟩ (usub64 p s) :=
    isr_noBoundary _ t hne hto hnb
  have h4 : ¬ usub64 p s > SINGLE_SWIPE_MAX_PERIOD := by
    rw [husab]
    omega
  have h5 : ¬ (usub64 p s < SINGLE_SWIPE_MIN_PERIOD ∨
      (⟨t0, s, t, n, false, m⟩ :
        DEVICE_EXTENSION).SwipeThreholdReached = true) := by
    rw [husab]
    rintro (h | h)
    · omega
    · exact Bool.false_ne_true h
  constructor
  · intro hn
    rw [hfront, isrSwipeChecks_count_small _ _ h4 h5 hn]
  · intro hn
    rw [hfront, isrSwipeChecks_count_fire _ _ h4 h5 hn]

theorem run_noCount (t0 s n m : Nat) (b : Bool) :
    ∀ (ts : List Nat) (p : Nat),
    0 < t0 → t0 ≤ p → s ≤ p → p < U64 →
    p ≤ s + SINGLE_SWIPE_MAX_PERIOD →
    gapChain p ts →
    (∀ x ∈ ts, x ≤ t0 + INPUT_PATTERN_MAX_PERIOD) →
    (∀ x ∈ ts, x < U64) →
    (∀ x ∈ ts, x ≤ s + SINGLE_SWIPE_MAX_PERIOD) →
    (b = true ∨ (p < s + SINGLE_SWIPE_MIN_PERIOD ∧
      ∀ x ∈ ts, x < s + SINGLE_SWIPE_MIN_PERIOD)) →
    isrFires ⟨t0, s, p, n, b, m⟩ ts = 0 ∧
    runIsr ⟨t0, s, p, n, b, m⟩ ts = ⟨t0, s, ts.getLastD p, n, b, m⟩ := by
  intro ts
  induction ts with
  | nil =>
    intro p _ _ _ _ _ _ _ _ _ _
    exact ⟨rfl, rfl⟩
  | cons t ts ih =>
    intro p h0 htp hsp hpU hpmax hchain hb60 hbU hbsafe hnc
    obtain ⟨hpt, hgap, hchain2⟩ := hchain
    have htU : t < U64 := hbU t (List.mem_cons_self t ts)
    have ht60 : t ≤ t0 + INPUT_PATTERN_MAX_PERIOD :=
      hb60 t (List.mem_cons_self t ts)
    have htsafe : t ≤ s + SINGLE_SWIPE_MAX_PERIOD :=
      hbsafe t (List.mem_cons_self t ts)
    have hskip : p < s + SINGLE_SWIPE_MIN_PERIOD ∨ b = true := by
      rcases hnc with h | ⟨h, _⟩
      · exact Or.inr h
      · exact Or.inl h
    have hstep := isr_step_skip t0 s p n m t b h0 htp hpt htU ht60 hgap hsp
      hpmax hskip
    have hnc2 : b = true ∨ (t < s + SINGLE_SWIPE_MIN_PERIOD ∧
        ∀ x ∈ ts, x < s + SINGLE_SWIPE_MIN_PERIOD) := by
      rcases hnc with h | ⟨_, h2⟩
      · exact Or.inl h
      · exact Or.inr ⟨h2 t (List.mem_cons_self t ts),
          fun x hx => h2 x (List.mem_cons_of_mem t hx)⟩
    have ihr := ih t h0 (by omega) (by omega) htU htsafe hchain2
      (fun x hx => hb60 x (List.mem_cons_of_mem t hx))
      (fun x hx => hbU x (List.mem_cons_of_mem t hx))
      (fun x hx => hbsafe x (List.mem_cons_of_mem t hx))
      hnc2
    constructor
    · simp [isrFires, hstep, ihr.1]
    · simp only [runIsr]
      rw [hstep]
      dsimp only
      rw [ihr.2, List.getLastD_cons]

theorem run_count (t0 s n m : Nat) (hn : n ≤ 2) :
    ∀ (ts : List Nat) (p : Nat),
    0 < t0 → t0 ≤ p → s ≤ p → p < U64 →
    p ≤ s + SINGLE_SWIPE_MAX_PERIOD →
    gapChain p ts →
    (∀ x ∈ ts, x ≤ t0 + INPUT_PATTERN_MAX_PERIOD) →
    (∀ x ∈ ts, x < U64) →
    (∀ x ∈ ts, x ≤ s + SINGLE_SWIPE_MAX_PERIOD) →
    ts ≠ [] →
    s + SINGLE_SWIPE_MIN_PERIOD ≤ ts.dropLast.getLastD p →
    isrFires ⟨t0, s, p, n, false, m⟩ ts = 0 ∧
    runIsr ⟨t0, s, p, n, false, m⟩ ts =
      ⟨t0, s, ts.getLastD p, n + 1, true, m⟩ := by
  intro ts
  induction ts with
  | nil =>
    intro p _ _ _ _ _ _ _ _ _ hne _
    exact absurd rfl hne
  | cons t ts ih =>
    intro p h0 htp hsp hpU hpmax hchain hb60 hbU hbsafe _hne hreach
    obtain ⟨hpt, hgap, hchain2⟩ := hchain
    have htU : t < U64 := hbU t (List.mem_cons_self t ts)
    have ht60 : t ≤ t0 + INPUT_PATTERN_MAX_PERIOD :=
      hb60 t (List.mem_cons_self t ts)
    have htsafe : t ≤ s + SINGLE_SWIPE_MAX_PERIOD :=
      hbsafe t (List.mem_cons_self t ts)
    by_cases hc : s + SINGLE_SWIPE_MIN_PERIOD ≤ p
    · have hstep := (isr_step_count t0 s p n m t h0 htp hpt htU ht60 hgap hsp
        hpmax hc).1 hn
      have ihr := run_noCount t0 s (n + 1) m true ts t h0 (by omega) (by omega)
        htU htsafe hchain2
        (fun x hx => hb60 x (List.mem_cons_of_mem t hx))
        (fun x hx => hbU x (List.mem_cons_of_mem t hx))
        (fun x hx => hbsafe x (List.mem_cons_of_mem t hx))
        (Or.inl rfl)
      constructor
      · simp [isrFires, hstep, ihr.1]
      · simp only [runIsr]
        rw [hstep]
        dsimp only
        rw [ihr.2, List.getLastD_cons]
    · have hstep := isr_step_skip t0 s p n m t false h0 htp hpt htU ht60 hgap
        hsp hpmax (Or.inl (by omega))
      rcases ts with _ | ⟨u, ts2⟩
      · exfalso
        have hval : ([t] : List Nat).dropLast.getLastD p = p := rfl
        rw [hval] at hreach
        omega
      · have hreach2 : s + SINGLE_SWIPE_MIN_PERIOD ≤
            (u :: ts2).dropLast.getLastD t := by
          have hr : s + SINGLE_SWIPE_MIN_PERIOD ≤
              (t :: (u :: ts2).dropLast).getLastD p := hreach
          rw [List.getLastD_cons] at hr
          exact hr
        have ihr := ih t h0 (by omega) (by omega) htU htsafe hchain2
          (fun x hx => hb60 x (List.mem_cons_of_mem t hx))
          (fun x hx => hbU x (List.mem_cons_of_mem t hx))
          (fun x hx => hbsafe x (List.mem_cons_of_mem t hx))
          (by simp) hreach2
        constructor
        · rw [isrFires, hstep]
          dsimp only
          rw [ihr.1]
          simp
        · rw [runIsr, hstep]
          dsimp only
          rw [ihr.2]
          simp only [List.getLastD_cons]

theorem run_fire (t0 s m : Nat) :
    ∀ (ts : List Nat) (p : Nat),
    0 < t0 → t0 ≤ p → s ≤ p → p < U64 →
    p ≤ s + SINGLE_SWIPE_MAX_PERIOD →
    gapChain p ts →
    (∀ x ∈ ts, x ≤ t0 + INPUT_PATTERN_MAX_PERIOD) →
    (∀ x ∈ ts, x < U64) →
    (∀ x ∈ ts, x < s + TEN_SECONDS) →
    ts ≠ [] →
    s + SINGLE_SWIPE_MIN_PERIOD ≤ ts.dropLast.getLastD p →
    isrFires ⟨t0, s, p, 3, false, m⟩ ts = 1 := by
  intro ts
  induction ts with
  | nil =>
    intro p _ _ _ _ _ _ _ _ _ hne _
    exact absurd rfl hne
  | cons t ts ih =>
    intro p h0 htp hsp hpU hpmax hchain hb60 hbU hspan _hne hreach
    obtain ⟨hpt, hgap, hchain2⟩ := hchain
    have e2 : SINGLE_SWIPE_MIN_PERIOD = 50000000 := rfl
    have e3 : SINGLE_SWIPE_MAX_PERIOD = 150000000 := rfl
    have e4 : INPUT_PATTERN_MAX_PERIOD = 600000000 := rfl
    have e5 : TEN_SECONDS = 100000000 := rfl
    have htU : t < U64 := hbU t (List.mem_cons_self t ts)
    have ht60 : t ≤ t0 + INPUT_PATTERN_MAX_PERIOD :=
      hb60 t (List.mem_cons_self t ts)
    have htspan : t < s + TEN_SECONDS := hspan t (List.mem_cons_self t ts)
    by_cases hc : s + SINGLE_SWIPE_MIN_PERIOD ≤ p
    · have hstep := (isr_step_count t0 s p 3 m t h0 htp hpt htU ht60 hgap hsp
        hpmax hc).2 rfl
      rcases ts with _ | ⟨u, ts2⟩
      · simp [isrFires, hstep]
      · obtain ⟨htu, hgap2, hchain3⟩ := hchain2
        have huU : u < U64 := hbU u (by simp)
        have huspan : u < s + TEN_SECONDS := hspan u (by simp)
        have hcold : WpCrasherEvtInterruptIsr ⟨0, s, t, 4, true, m⟩ u =
            ⟨⟨u, u, u, 0, false, m⟩, false, false⟩ := isr_cold _ u rfl
        have ihr := run_noCount u u 0 m false ts2 u (by omega) (le_refl u)
          (le_refl u) huU (by omega) hchain3
          (fun x hx => by
            have hxs := hspan x (by simp [hx])
            omega)
          (fun x hx => hbU x (by simp [hx]))
          (fun x hx => by
            have hxs := hspan x (by simp [hx])
            omega)
          (Or.inr ⟨by omega, fun x hx => by
            have hxs := hspan x (by simp [hx])
            omega⟩)
        rw [isrFires, hstep]
        dsimp only
        rw [isrFires, hcold]
        dsimp only
        rw [ihr.1]
        simp
    · have hstep := isr_step_skip t0 s p 3 m t false h0 htp hpt htU ht60 hgap
        hsp hpmax (Or.inl (by omega))
      rcases ts with _ | ⟨u, ts2⟩
      · exfalso
        have hval : ([t] : List Nat).dropLast.getLastD p = p := rfl
        rw [hval] at hreach
        omega
      · have hreach2 : s + SINGLE_SWIPE_MIN_PERIOD ≤
            (u :: ts2).dropLast.getLastD t := by
          have hr : s + SINGLE_SWIPE_MIN_PERIOD ≤
              (t :: (u :: ts2).dropLast).getLastD p := hreach
          rw [List.getLastD_cons] at hr
          exact hr
        have ihr := ih t h0 (by omega) (by omega) htU (by omega) hchain2
          (fun x hx => hb60 x (List.mem_cons_of_mem t hx))
          (fun x hx => hbU x (List.mem_cons_of_mem t hx))
          (fun x hx => hspan x (List.mem_cons_of_mem t hx))
          (by simp) hreach2
        rw [isrFires, hstep]
        dsimp only
        rw [ihr]
        simp

/-! ## The 4-swipe pattern of claim C1, stated in the words of the claim -/

/-- A swipe as the claim describes it: a nonempty burst of events whose
successive gaps are at most 0.2 s and whose span (last event minus first
event) lies strictly between 5 s and 10 s. -/
abbrev c1SwipeShape (l : List Nat) : Prop :=
  l ≠ [] ∧ gapsOk l ∧
    SINGLE_SWIPE_MIN_PERIOD < c1Last l - c1Head l ∧
    c1Last l - c1Head l < TEN_SECONDS

/-- An inter-swipe rest strictly between 5 s and 15 s, as the claim
describes it. -/
abbrev c1RestOk (gap : Nat) : Prop :=
  SINGLE_SWIPE_MIN_PERIOD < gap ∧ gap < SINGLE_SWIPE_MAX_PERIOD

/-- The full pattern of the claim: exactly 4 swipes of the described shape,
separated by rests strictly inside the window, the whole sequence completing
within 60 s of its first event. -/
abbrev c1PatternValid (s1 s2 s3 s4 : List Nat) : Prop :=
  c1SwipeShape s1 ∧ c1SwipeShape s2 ∧ c1SwipeShape s3 ∧ c1SwipeShape s4 ∧
    c1RestOk (c1Head s2 - c1Last s1) ∧ c1RestOk (c1Head s3 - c1Last s2) ∧
    c1RestOk (c1Head s4 - c1Last s3) ∧
    c1Last s4 - c1Head s1 ≤ INPUT_PATTERN_MAX_PERIOD

/-- The condition the counterexample forces onto the claim: the swipe must
reach the 5 s threshold before its final event, i.e. its next-to-last event
lies at least 5 s after its first event, because the code measures the
running swipe duration as of the previous event. -/
abbrev c1SwipeCounts (l : List Nat) : Prop :=
  c1Head l + SINGLE_SWIPE_MIN_PERIOD ≤ l.dropLast.getLastD 0

/-- Processing the first swipe of a pattern from the idle state: the cold
start logs the first event and the 5 s threshold is crossed before the last
event, so the swipe is counted exactly once and no bug check fires. -/
theorem run_firstSwipe (sw : List Nat)
    (hne : sw ≠ [])
    (hpos : 0 < c1Head sw)
    (hchain : gapsOk sw)
    (hspan : ∀ x ∈ sw, x < c1Head sw + TEN_SECONDS)
    (hreach : c1SwipeCounts sw)
    (hbU : ∀ x ∈ sw, x < U64) :
    isrFires zeroDev sw = 0 ∧
    runIsr zeroDev sw = ⟨c1Head sw, c1Head sw, c1Last sw, 1, true, 0⟩ := by
  rcases sw with _ | ⟨h, tail⟩
  · exact absurd rfl hne
  have e2 : SINGLE_SWIPE_MIN_PERIOD = 50000000 := rfl
  have e3 : SINGLE_SWIPE_MAX_PERIOD = 150000000 := rfl
  have e4 : INPUT_PATTERN_MAX_PERIOD = 600000000 := rfl
  have e5 : TEN_SECONDS = 100000000 := rfl
  have hpos2 : 0 < h := hpos
  have hcold : WpCrasherEvtInterruptIsr zeroDev h =
      ⟨⟨h, h, h, 0, false, 0⟩, false, false⟩ := isr_cold zeroDev h rfl
  rcases tail with _ | ⟨u, tail2⟩
  · exfalso
    have hr : h + SINGLE_SWIPE_MIN_PERIOD ≤ 0 := hreach
    omega
  · have hhU : h < U64 := hbU h (by simp)
    have hreach2 : h + SINGLE_SWIPE_MIN_PERIOD ≤
        (u :: tail2).dropLast.getLastD h := by
      have hr : h + SINGLE_SWIPE_MIN_PERIOD ≤
          (h :: (u :: tail2).dropLast).getLastD 0 := hreach
      rw [List.getLastD_cons] at hr
      exact hr
    have hspan2 : ∀ x ∈ u :: tail2, x < h + TEN_SECONDS :=
      fun x hx => hspan x (List.mem_cons_of_mem h hx)
    have hrc := run_count h h 0 0 (by omega) (u :: tail2) h hpos2 (le_refl h)
      (le_refl h) hhU (by omega) hchain
      (fun x hx => by
        have hxs := hspan2 x hx
        omega)
      (fun x hx => hbU x (List.mem_cons_of_mem h hx))
      (fun x hx => by
        have hxs := hspan2 x hx
        omega)
      (by simp) hreach2
    constructor
    · rw [isrFires, hcold]
      dsimp only
      rw [hrc.1]
      simp
    · rw [runIsr, hcold]
      dsimp only
      rw [hrc.2]
      simp only [c1Last, List.getLastD_cons]
      rfl

/-- Processing one later swipe of a pattern: the first event of the swipe
arrives after a rest strictly inside the window and starts a new swipe; the
5 s threshold is crossed before the last event.  With at most 2 swipes
already counted the swipe is counted once without firing; with 3 already
counted the bug check fires exactly once during the swipe. -/
theorem run_midSwipe (t0 s0 p n m : Nat) (b : Bool) (sw : List Nat)
    (h0 : 0 < t0) (htp : t0 ≤ p)
    (hgapLo : p + SINGLE_SWIPE_MIN_PERIOD < c1Head sw)
    (hgapHi : c1Head sw ≤ p + SINGLE_SWIPE_MAX_PERIOD)
    (hne : sw ≠ [])
    (hchain : gapsOk sw)
    (hspan : ∀ x ∈ sw, x < c1Head sw + TEN_SECONDS)
    (hreach : c1SwipeCounts sw)
    (hb60 : ∀ x ∈ sw, x ≤ t0 + INPUT_PATTERN_MAX_PERIOD)
    (hbU : ∀ x ∈ sw, x < U64) :
    (n ≤ 2 →
      isrFires ⟨t0, s0, p, n, b, m⟩ sw = 0 ∧
      runIsr ⟨t0, s0, p, n, b, m⟩ sw =
        ⟨t0, c1Head sw, c1Last sw, n + 1, true, m⟩) ∧
    (n = 3 → isrFires ⟨t0, s0, p, n, b, m⟩ sw = 1) := by
  rcases sw with _ | ⟨h, tail⟩
  · exact absurd rfl hne
  have e1 : SINGLE_SWIPE_MAX_INTERVAL = 2000000 := rfl
  have e2 : SINGLE_SWIPE_MIN_PERIOD = 50000000 := rfl
  have e3 : SINGLE_SWIPE_MAX_PERIOD = 150000000 := rfl
  have e4 : INPUT_PATTERN_MAX_PERIOD = 600000000 := rfl
  have e5 : TEN_SECONDS = 100000000 := rfl
  have hgapLo2 : p + SINGLE_SWIPE_MIN_PERIOD < h := hgapLo
  have hgapHi2 : h ≤ p + SINGLE_SWIPE_MAX_PERIOD := hgapHi
  have hhU : h < U64 := hbU h (by simp)
  have hh60 : h ≤ t0 + INPUT_PATTERN_MAX_PERIOD := hb60 h (by simp)
  have husab : usub64 h p = h - p := usub64_eq (by omega) hhU
  have hb1 : ¬ (⟨t0, s0, p, n, b, m⟩ :
      DEVICE_EXTENSION).TimeStampInputPatternBegin = 0 := by
    show ¬ t0 = 0
    omega
  have hb2 : ¬ usub64 h (⟨t0, s0, p, n, b, m⟩ :
      DEVICE_EXTENSION).TimeStampInputPatternBegin >
      INPUT_PATTERN_MAX_PERIOD := by
    show ¬ usub64 h t0 > INPUT_PATTERN_MAX_PERIOD
    rw [usub64_eq (by omega) hhU]
    omega
  have hb3 : usub64 h (⟨t0, s0, p, n, b, m⟩ :
      DEVICE_EXTENSION).TimeStampLastInterrupt >
      SINGLE_SWIPE_MAX_INTERVAL := by
    show usub64 h p > SINGLE_SWIPE_MAX_INTERVAL
    rw [husab]
    omega
  have hb4 : ¬ (usub64 h (⟨t0, s0, p, n, b, m⟩ :
      DEVICE_EXTENSION).TimeStampLastInterrupt < SINGLE_SWIPE_MIN_PERIOD ∨
      usub64 h (⟨t0, s0, p, n, b, m⟩ :
        DEVICE_EXTENSION).TimeStampLastInterrupt >
        SINGLE_SWIPE_MAX_PERIOD) := by
    show ¬ (usub64 h p < SINGLE_SWIPE_MIN_PERIOD ∨
      usub64 h p > SINGLE_SWIPE_MAX_PERIOD)
    rw [husab]
    rintro (hlt | hgt)
    · omega
    · omega
  have hbstep : WpCrasherEvtInterruptIsr ⟨t0, s0, p, n, b, m⟩ h =
      ⟨⟨t0, h, h, n, false, m⟩, false, false⟩ :=
    isr_boundary_new _ h hb1 hb2 hb3 hb4
  rcases tail with _ | ⟨u, tail2⟩
  · exfalso
    have hr : h + SINGLE_SWIPE_MIN_PERIOD ≤ 0 := hreach
    omega
  · have hreach2 : h + SINGLE_SWIPE_MIN_PERIOD ≤
        (u :: tail2).dropLast.getLastD h := by
      have hr : h + SINGLE_SWIPE_MIN_PERIOD ≤
          (h :: (u :: tail2).dropLast).getLastD 0 := hreach
      rw [List.getLastD_cons] at hr
      exact hr
    have hchain2 : gapChain h (u :: tail2) := hchain
    have hspan2 : ∀ x ∈ u :: tail2, x < h + TEN_SECONDS :=
      fun x hx => hspan x (List.mem_cons_of_mem h hx)
    have hb60t : ∀ x ∈ u :: tail2, x ≤ t0 + INPUT_PATTERN_MAX_PERIOD :=
      fun x hx => hb60 x (List.mem_cons_of_mem h hx)
    have hbUt : ∀ x ∈ u :: tail2, x < U64 :=
      fun x hx => hbU x (List.mem_cons_of_mem h hx)
    have hbsafet : ∀ x ∈ u :: tail2, x ≤ h + SINGLE_SWIPE_MAX_PERIOD :=
      fun x hx => by
        have hxs := hspan2 x hx
        omega
    constructor
    · intro hn
      have hrc := run_count t0 h n m hn (u :: tail2) h h0 (by omega)
        (le_refl h) hhU (by omega) hchain2 hb60t hbUt hbsafet (by simp)
        hreach2
      constructor
      · rw [isrFires, hbstep]
        dsimp only
        rw [hrc.1]
        simp
      · rw [runIsr, hbstep]
        dsimp only
        rw [hrc.2]
        simp only [c1Last, List.getLastD_cons]
        rfl
    · intro hn
      subst hn
      have hrf := run_fire t0 h m (u :: tail2) h h0 (by omega) (le_refl h)
        hhU (by omega) hchain2 hb60t hbUt hspan2 (by simp) hreach2
      rw [isrFires, hbstep]
      dsimp only
      rw [hrf]
      simp

theorem c1Head_le_last (l : List Nat) (h : gapsOk l) (hne : l ≠ []) :
    c1Head l ≤ c1Last l := by
  rcases l with _ | ⟨a, tail⟩
  · exact absurd rfl hne
  · exact gapsOk_le_last _ h a (by simp)

/-- C1 amended: for every valid 4-swipe pattern in the sense of the claim
whose swipes moreover each reach the 5 s threshold before their final event
(next-to-last event at least 5 s after the swipe start), delivered by a
monotone 64-bit clock with a positive first reading, the ISR invokes the
bug check exactly once over the whole trace, never during the first three
swipes, and every firing call posts count 4 with the session reset to
idle. -/
theorem claim_C1 (s1 s2 s3 s4 : List Nat)
    (hv : c1PatternValid s1 s2 s3 s4)
    (hc1 : c1SwipeCounts s1) (hc2 : c1SwipeCounts s2)
    (hc3 : c1SwipeCounts s3) (hc4 : c1SwipeCounts s4)
    (hpos : 0 < c1Head s1) (hbound : c1Last s4 < U64) :
    isrFires zeroDev (s1 ++ s2 ++ s3 ++ s4) = 1 ∧
    isrFires zeroDev (s1 ++ s2 ++ s3) = 0 ∧
    isrFireResetsOk zeroDev (s1 ++ s2 ++ s3 ++ s4) = true := by
  obtain ⟨⟨hne1, hch1, hlo1, hhi1⟩, ⟨hne2, hch2, hlo2, hhi2⟩,
    ⟨hne3, hch3, hlo3, hhi3⟩, ⟨hne4, hch4, hlo4, hhi4⟩,
    ⟨g12a, g12b⟩, ⟨g23a, g23b⟩, ⟨g34a, g34b⟩, h60⟩ := hv
  have e2 : SINGLE_SWIPE_MIN_PERIOD = 50000000 := rfl
  have e3 : SINGLE_SWIPE_MAX_PERIOD = 150000000 := rfl
  have e4 : INPUT_PATTERN_MAX_PERIOD = 600000000 := rfl
  have e5 : TEN_SECONDS = 100000000 := rfl
  have hb1 : ∀ x ∈ s1, x ≤ c1Last s1 := gapsOk_le_last s1 hch1
  have hb2 : ∀ x ∈ s2, x ≤ c1Last s2 := gapsOk_le_last s2 hch2
  have hb3 : ∀ x ∈ s3, x ≤ c1Last s3 := gapsOk_le_last s3 hch3
  have hb4 : ∀ x ∈ s4, x ≤ c1Last s4 := gapsOk_le_last s4 hch4
  have hh1 : c1Head s1 ≤ c1Last s1 := c1Head_le_last s1 hch1 hne1
  have hh2 : c1Head s2 ≤ c1Last s2 := c1Head_le_last s2 hch2 hne2
  have hh3 : c1Head s3 ≤ c1Last s3 := c1Head_le_last s3 hch3 hne3
  have hh4 : c1Head s4 ≤ c1Last s4 := c1Head_le_last s4 hch4 hne4
  have hspan1 : ∀ x ∈ s1, x < c1Head s1 + TEN_SECONDS := fun x hx => by
    have := hb1 x hx
    omega
  have hspan2 : ∀ x ∈ s2, x < c1Head s2 + TEN_SECONDS := fun x hx => by
    have := hb2 x hx
    omega
  have hspan3 : ∀ x ∈ s3, x < c1Head s3 + TEN_SECONDS := fun x hx => by
    have := hb3 x hx
    omega
  have hspan4 : ∀ x ∈ s4, x < c1Head s4 + TEN_SECONDS := fun x hx => by
    have := hb4 x hx
    omega
  have hbU1 : ∀ x ∈ s1, x < U64 := fun x hx => by
    have := hb1 x hx
    omega
  have hbU2 : ∀ x ∈ s2, x < U64 := fun x hx => by
    have := hb2 x hx
    omega
  have hbU3 : ∀ x ∈ s3, x < U64 := fun x hx => by
    have := hb3 x hx
    omega
  have hbU4 : ∀ x ∈ s4, x < U64 := fun x hx => by
    have := hb4 x hx
    omega
  have hb60_2 : ∀ x ∈ s2, x ≤ c1Head s1 + INPUT_PATTERN_MAX_PERIOD :=
    fun x hx => by
      have := hb2 x hx
      omega
  have hb60_3 : ∀ x ∈ s3, x ≤ c1Head s1 + INPUT_PATTERN_MAX_PERIOD :=
    fun x hx => by
      have := hb3 x hx
      omega
  have hb60_4 : ∀ x ∈ s4, x ≤ c1Head s1 + INPUT_PATTERN_MAX_PERIOD :=
    fun x hx => by
      have := hb4 x hx
      omega
  have F1 := run_firstSwipe s1 hne1 hpos hch1 hspan1 hc1 hbU1
  have F2 := (run_midSwipe (c1Head s1) (c1Head s1) (c1Last s1) 1 0 true s2
    hpos hh1 (by omega) (by omega) hne2 hch2 hspan2 hc2 hb60_2 hbU2).1
    (by omega)
  have F3 := (run_midSwipe (c1Head s1) (c1Head s2) (c1Last s2) 2 0 true s3
    hpos (by omega) (by omega) (by omega) hne3 hch3 hspan3 hc3 hb60_3
    hbU3).1 (by omega)
  have F4 := (run_midSwipe (c1Head s1) (c1Head s3) (c1Last s3) 3 0 true s4
    hpos (by omega) (by omega) (by omega) hne4 hch4 hspan4 hc4 hb60_4
    hbU4).2 rfl
  have hA1 : runIsr zeroDev s1 =
      ⟨c1Head s1, c1Head s1, c1Last s1, 1, true, 0⟩ := F1.2
  have hA2 : runIsr zeroDev (s1 ++ s2) =
      ⟨c1Head s1, c1Head s2, c1Last s2, 2, true, 0⟩ := by
    rw [runIsr_append, hA1, F2.2]
  have hA3 : runIsr zeroDev (s1 ++ s2 ++ s3) =
      ⟨c1Head s1, c1Head s3, c1Last s3, 3, true, 0⟩ := by
    rw [runIsr_append, hA2, F3.2]
  have hFires3 : isrFires zeroDev (s1 ++ s2 ++ s3) = 0 := by
    rw [isrFires_append, isrFires_append, F1.1, hA1, F2.1, hA2, F3.1]
  refine ⟨?_, hFires3, isrFireResetsOk_all _ _⟩
  rw [isrFires_append, hFires3, hA3, F4]

/-- Counterexample input: a swipe of span 5.08 s (strictly between 5 s and
10 s, gaps at most 0.2 s) whose next-to-last event sits at only 4.9 s after
the start, so the code, which measures the swipe as of the previous event,
never sees 5 s of it. -/
def c1BadSwipe (b : Nat) : List Nat :=
  (List.range 25).map (fun i => b + 2000000 * i) ++
    [b + 49000000, b + 50800000]

/-- Counterexample to C1 as stated: the four swipes below satisfy every
condition of the claim (spans strictly between 5 s and 10 s, gaps at most
0.2 s, rests strictly between 5 s and 15 s, whole pattern within 60 s,
positive monotone 64-bit timestamps), yet the bug check never fires, because
no swipe ever shows 5 s of recorded duration to the code. -/
theorem claim_C1_counterexample :
    c1PatternValid (c1BadSwipe 10000000) (c1BadSwipe 130800000)
      (c1BadSwipe 251600000) (c1BadSwipe 372400000) ∧
    0 < c1Head (c1BadSwipe 10000000) ∧
    c1Last (c1BadSwipe 372400000) < U64 ∧
    isrFires zeroDev (c1BadSwipe 10000000 ++ c1BadSwipe 130800000 ++
      c1BadSwipe 251600000 ++ c1BadSwipe 372400000) = 0 := by decide

/-- Witness input for the amended claim: a swipe of span 5.2 s whose
next-to-last event sits exactly 5 s after the start. -/
def c1GoodSwipe (b : Nat) : List Nat :=
  (List.range 27).map (fun i => b + 2000000 * i)

/-- Witness for C1 at a concrete valid pattern: four 5.2 s swipes separated
by 7 s rests, with the threshold reached before each final event. -/
theorem claim_C1_witness :
    isrFires zeroDev (c1GoodSwipe 10000000 ++ c1GoodSwipe 132000000 ++
      c1GoodSwipe 254000000 ++ c1GoodSwipe 376000000) = 1 ∧
    isrFires zeroDev (c1GoodSwipe 10000000 ++ c1GoodSwipe 132000000 ++
      c1GoodSwipe 254000000) = 0 ∧
    isrFireResetsOk zeroDev (c1GoodSwipe 10000000 ++ c1GoodSwipe 132000000 ++
      c1GoodSwipe 254000000 ++ c1GoodSwipe 376000000) = true :=
  claim_C1 _ _ _ _ (by decide) (by decide) (by decide) (by decide)
    (by decide) (by decide) (by decide)
